import Mathlib

/-!
Shallow embedding of `src/docker/thingsboard_installer.py`.

The script drives a sequence of external shell commands (`apt`, `docker`,
`docker-compose`, `ufw`), writes a `docker-compose.yml` descriptor into the
working directory and sends a status mail.  The embedding models:

* the outside world (`World`): the exit code and captured stderr each shell
  command would produce, the host memory/disk readings, the current user name
  and whether the SMTP send succeeds;
* the interactive run parameters (`Inputs`): the strings typed at the
  prompts and the files present in the working directory before the run;
* the observable effects (`St`): logger lines, the ordered trace of executed
  external commands, the working-directory files and the mails sent.

`exit(1)` in the Python source terminates the whole process; it is modelled
by `Except.error (1, s)` carrying the exit status together with the effects
observed up to that point.  A normally returning step is `Except.ok s`.
-/

namespace TBInstall

/-- The environment of one run: what the host and the network would answer.
`exitCode c` and `stderr c` are the exit status and captured standard error
of shell command `c`; `memGB`/`diskGB` are the psutil readings in GiB
(the Python source reads floats, the fractional rendering of the advisory
warning text is abstracted); `user` is `getpass.getuser()`; `smtpOk` tells
whether the SMTP session in `send_notification` succeeds and `smtpErr` is
the exception text when it does not. -/
structure World where
  exitCode : String → Int
  stderr : String → String
  memGB : Int
  diskGB : Int
  user : String
  smtpOk : Bool
  smtpErr : String

/-- Interactive answers and initial working directory of one run:
`fs0` is the file system (file name, content) in the working directory
before the run; `httpIn`, `mqttIn`, `coapIn` answer the three port prompts
of `get_user_config`; `envIn` answers the environment prompt of
`configure_environment`. -/
structure Inputs where
  fs0 : List (String × String)
  httpIn : String
  mqttIn : String
  coapIn : String
  envIn : String

/-- Observable effects accumulated by a run: logger lines (`logs`), the
ordered trace of external shell commands executed (`trace`), the working
directory files (`fs`, an association list from name to content) and the
mails sent (`emails`, recipient and body). -/
structure St where
  logs : List String
  trace : List String
  fs : List (String × String)
  emails : List (String × String)
  deriving DecidableEq

/-- Append one logger line. -/
def addLog (s : St) (m : String) : St :=
  { s with logs := s.logs ++ [m] }

/-- Remove a file from the working directory (used to model `os.rename`,
which atomically replaces the destination on POSIX). -/
def fsErase (fs : List (String × String)) (name : String) : List (String × String) :=
  fs.filter (fun p => p.1 != name)

/-- Write a file, overwriting any previous file of the same name
(Python `open(name, "w")` followed by `write`, and the destination side of
`os.rename`). -/
def fsWrite (fs : List (String × String)) (name content : String) : List (String × String) :=
  (name, content) :: fsErase fs name

/-- Sequencing of the Python statements: the next statement runs only when
the previous one returned normally; once `exit(1)` happened the rest of the
run is skipped and the terminal state is final. -/
def step (x : Except (Nat × St) St) (f : St → Except (Nat × St) St) : Except (Nat × St) St :=
  match x with
  | .ok s => f s
  | .error e => .error e

/-- `run_command(command, description)` of the source: logs the description,
runs the shell command capturing stdout/stderr; on nonzero exit it logs
`Failed to execute: <command>` and the captured stderr and calls `exit(1)`. -/
def run_command (w : World) (command description : String) (s : St) : Except (Nat × St) St :=
  let s1 := { s with logs := s.logs ++ [description], trace := s.trace ++ [command] }
  if w.exitCode command = 0 then
    .ok s1
  else
    .error (1, { s1 with logs := s1.logs ++ ["Failed to execute: " ++ command, w.stderr command] })

/-- `pre_install_check()`: advisory memory and disk warnings, then a probe of
`docker --version` run directly through `subprocess.run` (its failure does
not terminate the run). -/
def pre_install_check (w : World) (s : St) : St :=
  let s1 := addLog s "Performing pre-installation checks..."
  let s2 := if w.memGB < 2 then
      addLog s1 ("[WARNING] Available memory is " ++ toString w.memGB ++ " GB. Minimum 2GB recommended.")
    else s1
  let s3 := if w.diskGB < 10 then
      addLog s2 ("[WARNING] Available disk space is " ++ toString w.diskGB ++ " GB. Minimum 10GB recommended.")
    else s2
  let s4 := { s3 with trace := s3.trace ++ ["docker --version"] }
  if w.exitCode "docker --version" = 0 then
    addLog s4 "[INFO] Docker is already installed."
  else
    addLog s4 "[INFO] Docker is not installed. It will be installed."

/-- `update_and_upgrade_system()`. -/
def update_and_upgrade_system (w : World) (s : St) : Except (Nat × St) St :=
  run_command w "sudo apt update && sudo apt upgrade -y" "Updating and upgrading Ubuntu" s

/-- `install_docker()`. -/
def install_docker (w : World) (s : St) : Except (Nat × St) St :=
  step (run_command w "sudo apt install -y docker.io" "Installing Docker" s) fun s =>
  step (run_command w "sudo systemctl start docker && sudo systemctl enable docker"
      "Starting and enabling Docker service" s) fun s =>
  step (run_command w "sudo groupadd docker || true" "Creating Docker group (if not exists)" s) fun s =>
  run_command w ("sudo usermod -aG docker " ++ w.user) "Adding current user to Docker group" s

/-- `backup_existing_compose_file()`: when `docker-compose.yml` exists it is
renamed to `docker-compose.yml.bak` (POSIX `os.rename`, replacing any
previous file of that name), otherwise nothing happens. -/
def backup_existing_compose_file (s : St) : St :=
  match s.fs.lookup "docker-compose.yml" with
  | some content =>
      { s with
        fs := fsWrite (fsErase s.fs "docker-compose.yml") "docker-compose.yml.bak" content,
        logs := s.logs ++ ["Existing docker-compose.yml backed up as docker-compose.yml.bak"] }
  | none => s

/-- Python truthiness used by `input(...) or default`: the empty string is
replaced by the default, any other string is kept verbatim. -/
def orBlank (s d : String) : String :=
  if s = "" then d else s

/-- `get_user_config()`: the three port prompts with defaults 8080, 1883,
5683 substituted for blank answers. -/
def get_user_config (inp : Inputs) : String × String × String :=
  (orBlank inp.httpIn "8080", orBlank inp.mqttIn "1883", orBlank inp.coapIn "5683")

/-- Python `str.lower()` as the character-wise lowercase map (the source
only compares against the ASCII word `prod`). -/
def pyLower (s : String) : String :=
  ⟨s.data.map Char.toLower⟩

/-- `configure_environment()`: `env = input(...).lower() or "dev"`; `prod`
selects the larger heap and pool, anything else the dev defaults.  Returns
the pair (JAVA_OPTS, DB_POOL_SIZE) together with the log effect.  Note that
`full_installation` never calls this function. -/
def configure_environment (envIn : String) (s : St) : (String × String) × St :=
  let env := orBlank (pyLower envIn) "dev"
  if env = "prod" then
    (("-Xms512m -Xmx1024m", "50"),
      addLog s "Production environment selected. Using optimized resource limits.")
  else
    (("-Xms256m -Xmx512m", "20"),
      addLog s "Development environment selected. Using default settings.")

/-- The lines of the f-string template of
`install_thingsboard_docker_compose` (the template starts and ends with a
newline, hence the empty first and last line; the three port lines are the
only parameterized parts). -/
def composeFileLines (http_port mqtt_port coap_port : String) : List String :=
  [ ""
  , "version: '3.5'"
  , "services:"
  , "  tb:"
  , "    image: thingsboard/tb-postgres:latest"
  , "    container_name: tb"
  , "    ports:"
  , "      - \"" ++ (http_port ++ ":8080\"")
  , "      - \"" ++ (mqtt_port ++ ":1883\"")
  , "      - \"" ++ (coap_port ++ ":5683/udp\"")
  , "    environment:"
  , "      TB_QUEUE_TYPE: kafka"
  , "      SPRING_DATASOURCE_URL: jdbc:postgresql://postgres:5432/thingsboard"
  , "      SPRING_DATASOURCE_USERNAME: tb_user"
  , "      SPRING_DATASOURCE_PASSWORD: tb_password"
  , "    depends_on:"
  , "      - postgres"
  , ""
  , "  postgres:"
  , "    image: postgres:12"
  , "    container_name: postgres"
  , "    environment:"
  , "      POSTGRES_DB: thingsboard"
  , "      POSTGRES_USER: tb_user"
  , "      POSTGRES_PASSWORD: tb_password"
  , "    volumes:"
  , "      - ./data/db:/var/lib/postgresql/data"
  , "" ]

/-- The rendered descriptor text (`compose_file_content` in the source). -/
def compose_file_content (http_port mqtt_port coap_port : String) : String :=
  String.intercalate "\n" (composeFileLines http_port mqtt_port coap_port)

/-- `install_thingsboard_docker_compose(http_port, mqtt_port, coap_port)`:
writes (overwrites) `docker-compose.yml` with the rendered template, then
runs `docker-compose up -d` through the command runner. -/
def install_thingsboard_docker_compose (w : World) (http_port mqtt_port coap_port : String)
    (s : St) : Except (Nat × St) St :=
  let s1 := { s with
    fs := fsWrite s.fs "docker-compose.yml" (compose_file_content http_port mqtt_port coap_port) }
  run_command w "docker-compose up -d" "Deploying ThingsBoard with Docker Compose" s1

/-- `configure_firewall(http_port, mqtt_port, coap_port)`: one `ufw allow`
per port, then `ufw enable`. -/
def configure_firewall (w : World) (http_port mqtt_port coap_port : String)
    (s : St) : Except (Nat × St) St :=
  step (run_command w ("sudo ufw allow " ++ http_port) ("Allowing HTTP port " ++ http_port) s) fun s =>
  step (run_command w ("sudo ufw allow " ++ mqtt_port) ("Allowing MQTT port " ++ mqtt_port) s) fun s =>
  step (run_command w ("sudo ufw allow " ++ coap_port) ("Allowing CoAP port " ++ coap_port) s) fun s =>
  run_command w "sudo ufw enable" "Enabling the firewall" s

/-- `verify_installation()`. -/
def verify_installation (w : World) (s : St) : Except (Nat × St) St :=
  step (run_command w "docker-compose ps" "Checking running containers" s) fun s =>
  .ok (addLog s "ThingsBoard should now be accessible via http://<your-ip>:8080")

/-- `send_notification(email, success)`: composes the status mail and sends
it; every failure of the SMTP session is caught and logged, the function
always returns normally. -/
def send_notification (w : World) (email : String) (success : Bool) (s : St) : St :=
  let status := if success then "SUCCESS" else "FAILURE"
  let body := "The ThingsBoard installation completed with status: " ++ status
  if w.smtpOk then
    { s with emails := s.emails ++ [(email, body)],
             logs := s.logs ++ ["[INFO] Notification email sent."] }
  else
    addLog s ("[ERROR] Failed to send notification email: " ++ w.smtpErr)

/-- The state at the start of a run. -/
def initSt (inp : Inputs) : St :=
  { logs := [], trace := [], fs := inp.fs0, emails := [] }

/-- `full_installation()`: the linear pipeline.  It never calls
`configure_environment`, `create_thingsboard_user` or
`create_docker_network`. -/
def full_installation (w : World) (inp : Inputs) : Except (Nat × St) St :=
  let s := pre_install_check w (initSt inp)
  step (update_and_upgrade_system w s) fun s =>
  step (install_docker w s) fun s =>
  let s1 := backup_existing_compose_file s
  match get_user_config inp with
  | (http_port, mqtt_port, coap_port) =>
    step (install_thingsboard_docker_compose w http_port mqtt_port coap_port s1) fun s =>
    step (configure_firewall w http_port mqtt_port coap_port s) fun s =>
    step (verify_installation w s) fun s =>
    .ok (send_notification w "admin@example.com" true s)

/-- A port-mapping line of the rendered descriptor: six spaces of
indentation followed by a quoted dash entry (`      - "` as its first nine
characters).  In the template these are exactly the entries of the `ports:`
section; the other dash entries (`- postgres`, `- ./data/db:...`) are not
quoted. -/
def isPortMappingLine (l : String) : Bool :=
  decide (l.data.take 9 = "      - \"".data)

/-- The port-mapping lines of a rendered descriptor, in order. -/
def portMappingLines (ls : List String) : List String :=
  ls.filter isPortMappingLine

/-- The sixteen case variants of the word `prod`. -/
def isProdVariant (e : String) : Bool :=
  match e.data with
  | [c1, c2, c3, c4] =>
      (c1 == 'p' || c1 == 'P') && (c2 == 'r' || c2 == 'R') &&
      (c3 == 'o' || c3 == 'O') && (c4 == 'd' || c4 == 'D')
  | _ => false

/-- Whether `pat` occurs (contiguously) in the character list `l`. -/
def dataContains (pat : List Char) : List Char → Bool
  | [] => pat.isEmpty
  | a :: t => pat.isPrefixOf (a :: t) || dataContains pat t

/-- Whether `pat` occurs as a substring of `s`. -/
def containsSub (s pat : String) : Bool :=
  dataContains pat.data s.data

/-- A world in which every external command succeeds. -/
def allOkWorld : World :=
  { exitCode := fun _ => 0, stderr := fun _ => "", memGB := 4, diskGB := 20,
    user := "ubuntu", smtpOk := true, smtpErr := "" }

/-- Nondefault numeric answers to the port prompts. -/
def customPortInputs : Inputs :=
  { fs0 := [], httpIn := "9090", mqttIn := "11883", coapIn := "15683", envIn := "" }

/-- A world in which exactly `docker-compose up -d` fails. -/
def deployFailWorld : World :=
  { exitCode := fun c => if c = "docker-compose up -d" then 1 else 0,
    stderr := fun _ => "deploy failed", memGB := 4, diskGB := 20,
    user := "ubuntu", smtpOk := true, smtpErr := "" }

/-- Blank answers to every prompt, empty working directory. -/
def blankInputs : Inputs :=
  { fs0 := [], httpIn := "", mqttIn := "", coapIn := "", envIn := "" }

/-- An empty starting state used by witnesses. -/
def st0 : St :=
  { logs := [], trace := [], fs := [], emails := [] }

section Helpers

theorem step_ok (s : St) (f : St → Except (Nat × St) St) : step (.ok s) f = f s := rfl

theorem step_error (e : Nat × St) (f : St → Except (Nat × St) St) :
    step (.error e) f = .error e := rfl

theorem run_command_ok (w : World) (command description : String) (s : St)
    (h : w.exitCode command = 0) :
    run_command w command description s =
      .ok { s with logs := s.logs ++ [description], trace := s.trace ++ [command] } := by
  simp [run_command, h]

theorem run_command_fail (w : World) (command description : String) (s : St)
    (h : w.exitCode command ≠ 0) :
    run_command w command description s =
      .error (1, { s with
        logs := s.logs ++ [description] ++ ["Failed to execute: " ++ command, w.stderr command],
        trace := s.trace ++ [command] }) := by
  simp [run_command, h, List.append_assoc]

theorem fsErase_cons_self {k : String} (v : String) (t : List (String × String))
    (hk : k = n) : fsErase ((k, v) :: t) n = fsErase t n := by
  simp [fsErase, List.filter_cons, hk]

theorem fsErase_cons_ne {k : String} (v : String) (t : List (String × String))
    (hk : k ≠ n) : fsErase ((k, v) :: t) n = (k, v) :: fsErase t n := by
  simp [fsErase, List.filter_cons, hk]

theorem lookup_fsErase_self (fs : List (String × String)) (n : String) :
    (fsErase fs n).lookup n = none := by
  induction fs with
  | nil => rfl
  | cons p t ih =>
    rcases p with ⟨k, v⟩
    by_cases hk : k = n
    · rw [fsErase_cons_self v t hk]
      exact ih
    · rw [fsErase_cons_ne v t hk, List.lookup_cons,
        show (n == k) = false from beq_false_of_ne (Ne.symm hk)]
      exact ih

theorem lookup_fsErase_ne (fs : List (String × String)) (m n : String) (h : m ≠ n) :
    (fsErase fs n).lookup m = fs.lookup m := by
  induction fs with
  | nil => rfl
  | cons p t ih =>
    rcases p with ⟨k, v⟩
    by_cases hk : k = n
    · rw [fsErase_cons_self v t hk, List.lookup_cons,
        show (m == k) = false from beq_false_of_ne (hk ▸ h)]
      exact ih
    · rw [fsErase_cons_ne v t hk, List.lookup_cons, List.lookup_cons]
      cases hm : m == k
      · exact ih
      · rfl

theorem backup_trace (s : St) : (backup_existing_compose_file s).trace = s.trace := by
  cases h : s.fs.lookup "docker-compose.yml" <;>
    simp [backup_existing_compose_file, h]

theorem backup_emails (s : St) : (backup_existing_compose_file s).emails = s.emails := by
  cases h : s.fs.lookup "docker-compose.yml" <;>
    simp [backup_existing_compose_file, h]

theorem pre_install_check_trace (w : World) (s : St) :
    (pre_install_check w s).trace = s.trace ++ ["docker --version"] := by
  by_cases h1 : w.memGB < 2 <;> by_cases h2 : w.diskGB < 10 <;>
    by_cases h3 : w.exitCode "docker --version" = 0 <;>
    simp [pre_install_check, addLog, h1, h2, h3]

theorem pre_install_check_emails (w : World) (s : St) :
    (pre_install_check w s).emails = s.emails := by
  by_cases h1 : w.memGB < 2 <;> by_cases h2 : w.diskGB < 10 <;>
    by_cases h3 : w.exitCode "docker --version" = 0 <;>
    simp [pre_install_check, addLog, h1, h2, h3]

theorem configure_firewall_ok (w : World) (hp mp cp : String) (s : St)
    (h1 : w.exitCode ("sudo ufw allow " ++ hp) = 0)
    (h2 : w.exitCode ("sudo ufw allow " ++ mp) = 0)
    (h3 : w.exitCode ("sudo ufw allow " ++ cp) = 0)
    (h4 : w.exitCode "sudo ufw enable" = 0) :
    configure_firewall w hp mp cp s = .ok { s with
      logs := s.logs ++ ["Allowing HTTP port " ++ hp, "Allowing MQTT port " ++ mp,
        "Allowing CoAP port " ++ cp, "Enabling the firewall"],
      trace := s.trace ++ ["sudo ufw allow " ++ hp, "sudo ufw allow " ++ mp,
        "sudo ufw allow " ++ cp, "sudo ufw enable"] } := by
  simp [configure_firewall, run_command, step, h1, h2, h3, h4]

end Helpers

section ClaimTheorems

/-- C4: for all blank (empty) port answers `get_user_config` returns exactly
`("8080", "1883", "5683")`, and the gathered ports are always nonempty
strings (a nonblank answer is kept, a blank one is replaced by the nonblank
default). -/
theorem get_user_config_blank_defaults (inp : Inputs) :
    (inp.httpIn = "" → inp.mqttIn = "" → inp.coapIn = "" →
      get_user_config inp = ("8080", "1883", "5683")) ∧
    (get_user_config inp).1 ≠ "" ∧
    (get_user_config inp).2.1 ≠ "" ∧
    (get_user_config inp).2.2 ≠ "" := by
  refine ⟨fun h1 h2 h3 => by simp [get_user_config, orBlank, h1, h2, h3], ?_, ?_, ?_⟩
  all_goals
    dsimp [get_user_config]
    unfold orBlank
    split
    · decide
    · assumption

theorem get_user_config_blank_defaults_witness :
    get_user_config blankInputs = ("8080", "1883", "5683") :=
  (get_user_config_blank_defaults blankInputs).1 rfl rfl rfl

/-- C9: when a file already exists at the backup path, the backup rename
replaces it: afterwards the backup path holds the descriptor's content and
the previous backup content is gone (POSIX `os.rename` semantics). -/
theorem backup_overwrites_previous_backup (s : St) (c b : String)
    (h1 : s.fs.lookup "docker-compose.yml" = some c)
    (h2 : s.fs.lookup "docker-compose.yml.bak" = some b) :
    (backup_existing_compose_file s).fs.lookup "docker-compose.yml.bak" = some c ∧
    (b ≠ c → (backup_existing_compose_file s).fs.lookup "docker-compose.yml.bak" ≠ some b) := by
  have key : (backup_existing_compose_file s).fs.lookup "docker-compose.yml.bak" = some c := by
    simp [backup_existing_compose_file, h1, fsWrite]
  refine ⟨key, fun hbc hcontra => hbc ?_⟩
  have : some c = some b := key.symm.trans hcontra
  exact (Option.some.inj this).symm

theorem backup_overwrites_previous_backup_witness :
    (backup_existing_compose_file
        { st0 with fs := [("docker-compose.yml", "new"), ("docker-compose.yml.bak", "old")] }).fs.lookup
      "docker-compose.yml.bak" = some "new" :=
  (backup_overwrites_previous_backup
    { st0 with fs := [("docker-compose.yml", "new"), ("docker-compose.yml.bak", "old")] }
    "new" "old" (by decide) (by decide)).1

/-- C3: when a descriptor exists at the target path, the backup step moves
it to the `.bak` path (the prior version's content is preserved there and
the original path becomes free); when none exists the backup step is the
identity; and after the deploy step a fresh descriptor with the rendered
content sits at the original path. -/
theorem backup_then_deploy (s : St) (content : String) :
    (s.fs.lookup "docker-compose.yml" = some content →
      (backup_existing_compose_file s).fs.lookup "docker-compose.yml.bak" = some content ∧
      (backup_existing_compose_file s).fs.lookup "docker-compose.yml" = none) ∧
    (s.fs.lookup "docker-compose.yml" = none → backup_existing_compose_file s = s) ∧
    (∀ (w : World) (hp mp cp : String), w.exitCode "docker-compose up -d" = 0 →
      ∃ s', install_thingsboard_docker_compose w hp mp cp s = .ok s' ∧
        s'.fs.lookup "docker-compose.yml" = some (compose_file_content hp mp cp)) := by
  refine ⟨fun h => ⟨?_, ?_⟩, fun h => ?_, fun w hp mp cp hw => ?_⟩
  · simp [backup_existing_compose_file, h, fsWrite]
  · simp only [backup_existing_compose_file, h, fsWrite]
    rw [List.lookup_cons, show ("docker-compose.yml" == "docker-compose.yml.bak") = false by decide]
    rw [lookup_fsErase_ne _ _ _ (by decide), lookup_fsErase_self]
  · simp [backup_existing_compose_file, h]
  · refine ⟨_, by unfold install_thingsboard_docker_compose; exact run_command_ok w _ _ _ hw, ?_⟩
    simp [fsWrite]

theorem backup_then_deploy_witness :
    ((backup_existing_compose_file { st0 with fs := [("docker-compose.yml", "old")] }).fs.lookup
        "docker-compose.yml.bak" = some "old" ∧
      (backup_existing_compose_file { st0 with fs := [("docker-compose.yml", "old")] }).fs.lookup
        "docker-compose.yml" = none) ∧
    ∃ s', install_thingsboard_docker_compose allOkWorld "8080" "1883" "5683" st0 = .ok s' ∧
      s'.fs.lookup "docker-compose.yml" = some (compose_file_content "8080" "1883" "5683") :=
  ⟨(backup_then_deploy { st0 with fs := [("docker-compose.yml", "old")] } "old").1 rfl,
   (backup_then_deploy st0 "unused").2.2 allOkWorld "8080" "1883" "5683" rfl⟩

/-- C7: for every triple of ports, a successful firewall configuration
executes exactly one `ufw allow` per port followed by exactly one
`ufw enable`, in that order, and nothing else. -/
theorem configure_firewall_command_order (w : World) (hp mp cp : String) (s : St)
    (h1 : w.exitCode ("sudo ufw allow " ++ hp) = 0)
    (h2 : w.exitCode ("sudo ufw allow " ++ mp) = 0)
    (h3 : w.exitCode ("sudo ufw allow " ++ cp) = 0)
    (h4 : w.exitCode "sudo ufw enable" = 0) :
    ∃ s', configure_firewall w hp mp cp s = .ok s' ∧
      s'.trace = s.trace ++ ["sudo ufw allow " ++ hp, "sudo ufw allow " ++ mp,
        "sudo ufw allow " ++ cp, "sudo ufw enable"] :=
  ⟨_, configure_firewall_ok w hp mp cp s h1 h2 h3 h4, rfl⟩

theorem configure_firewall_command_order_witness :
    ∃ s', configure_firewall allOkWorld "9090" "11883" "15683" st0 = .ok s' ∧
      s'.trace = st0.trace ++ ["sudo ufw allow " ++ "9090", "sudo ufw allow " ++ "11883",
        "sudo ufw allow " ++ "15683", "sudo ufw enable"] :=
  configure_firewall_command_order allOkWorld "9090" "11883" "15683" st0 rfl rfl rfl rfl

end ClaimTheorems

section TierSelection

theorem char_toNat_ofNat (n : Nat) (h : n.isValidChar) : (Char.ofNat n).toNat = n := by
  rw [Char.ofNat, dif_pos h]; rfl

theorem toLower_eq_ascii (a c C : Char) (hcC : c.toNat = C.toNat + 32)
    (h : a.toLower = c) : a = c ∨ a = C := by
  simp only [Char.toLower] at h
  split at h
  next hr =>
    right
    have h2 := congrArg Char.toNat h
    rw [char_toNat_ofNat _ (Or.inl (by omega))] at h2
    have h3 : a.toNat = C.toNat := by omega
    exact Char.ext (UInt32.ext h3)
  next hr => exact Or.inl h

theorem isProdVariant_of_pyLower {e : String} (h : pyLower e = "prod") :
    isProdVariant e = true := by
  obtain ⟨l⟩ := e
  have hd : l.map Char.toLower = "prod".data := congrArg String.data h
  rw [show "prod".data = ['p', 'r', 'o', 'd'] from rfl] at hd
  rcases l with _ | ⟨a, _ | ⟨b, _ | ⟨c, _ | ⟨d, _ | ⟨x, t⟩⟩⟩⟩⟩ <;> simp at hd
  obtain ⟨h1, h2, h3, h4⟩ := hd
  rcases toLower_eq_ascii a 'p' 'P' (by decide) h1 with rfl | rfl <;>
    rcases toLower_eq_ascii b 'r' 'R' (by decide) h2 with rfl | rfl <;>
    rcases toLower_eq_ascii c 'o' 'O' (by decide) h3 with rfl | rfl <;>
    rcases toLower_eq_ascii d 'd' 'D' (by decide) h4 with rfl | rfl <;>
    decide

end TierSelection

section ClaimTheoremsTier

/-- C5: an environment answer that is the word `prod` in any letter case
selects `(JAVA_OPTS, DB_POOL_SIZE) = ("-Xms512m -Xmx1024m", "50")`; every
other answer, the blank answer included, selects the dev defaults
`("-Xms256m -Xmx512m", "20")`. -/
theorem configure_environment_tier_selection (e : String) (s : St) :
    (isProdVariant e = true →
      (configure_environment e s).1 = ("-Xms512m -Xmx1024m", "50")) ∧
    (isProdVariant e = false →
      (configure_environment e s).1 = ("-Xms256m -Xmx512m", "20")) := by
  constructor
  · intro hv
    obtain ⟨l⟩ := e
    unfold isProdVariant at hv
    rcases l with _ | ⟨a, _ | ⟨b, _ | ⟨c, _ | ⟨d, _ | ⟨x, t⟩⟩⟩⟩⟩ <;> simp at hv
    obtain ⟨⟨⟨ha, hb⟩, hc⟩, hd⟩ := hv
    rcases ha with rfl | rfl <;> rcases hb with rfl | rfl <;>
      rcases hc with rfl | rfl <;> rcases hd with rfl | rfl <;> rfl
  · intro hv
    by_cases hp : pyLower e = "prod"
    · rw [isProdVariant_of_pyLower hp] at hv
      cases hv
    · have henv : orBlank (pyLower e) "dev" ≠ "prod" := by
        unfold orBlank
        split
        · decide
        · exact hp
      simp [configure_environment, henv]

theorem configure_environment_tier_selection_witness :
    (configure_environment "PrOd" st0).1 = ("-Xms512m -Xmx1024m", "50") ∧
    (configure_environment "" st0).1 = ("-Xms256m -Xmx512m", "20") ∧
    (configure_environment "staging" st0).1 = ("-Xms256m -Xmx512m", "20") :=
  ⟨(configure_environment_tier_selection "PrOd" st0).1 (by decide),
   (configure_environment_tier_selection "" st0).2 (by decide),
   (configure_environment_tier_selection "staging" st0).2 (by decide)⟩

end ClaimTheoremsTier

section PortMappings

theorem isPortMappingLine_quoted (t : String) :
    isPortMappingLine ("      - \"" ++ t) = true := by
  simp only [isPortMappingLine, String.data_append, decide_eq_true_eq]
  exact List.take_left' rfl

end PortMappings

section ClaimTheoremsPorts

set_option maxRecDepth 4000 in
/-- C6: for any three gathered ports the rendered descriptor contains
exactly three port-mapping entries, pairing the given external ports with
the fixed internal ports 8080, 1883 and 5683 (the CoAP one over UDP), in
that order, and no other port mappings; for the ports (9090, 11883, 15683)
the rendered descriptor text is the template verbatim with exactly those
three mappings substituted. -/
theorem compose_descriptor_port_mappings (hp mp cp : String) :
    portMappingLines (composeFileLines hp mp cp) =
      ["      - \"" ++ (hp ++ ":8080\""), "      - \"" ++ (mp ++ ":1883\""),
       "      - \"" ++ (cp ++ ":5683/udp\"")] ∧
    compose_file_content "9090" "11883" "15683" = "\nversion: '3.5'\nservices:\n  tb:\n    image: thingsboard/tb-postgres:latest\n    container_name: tb\n    ports:\n      - \"9090:8080\"\n      - \"11883:1883\"\n      - \"15683:5683/udp\"\n    environment:\n      TB_QUEUE_TYPE: kafka\n      SPRING_DATASOURCE_URL: jdbc:postgresql://postgres:5432/thingsboard\n      SPRING_DATASOURCE_USERNAME: tb_user\n      SPRING_DATASOURCE_PASSWORD: tb_password\n    depends_on:\n      - postgres\n\n  postgres:\n    image: postgres:12\n    container_name: postgres\n    environment:\n      POSTGRES_DB: thingsboard\n      POSTGRES_USER: tb_user\n      POSTGRES_PASSWORD: tb_password\n    volumes:\n      - ./data/db:/var/lib/postgresql/data\n" := by
  constructor
  · simp [portMappingLines, composeFileLines, List.filter, isPortMappingLine_quoted,
      isPortMappingLine, decide_eq_true_eq, List.take]
  · rfl

/-- C10: every nonblank port answer is gathered verbatim (no validation or
conversion), appears verbatim in the rendered descriptor's port-mapping
entries and is passed verbatim to the firewall allow commands. -/
theorem ports_used_verbatim (inp : Inputs) (w : World) (s : St)
    (h1 : inp.httpIn ≠ "") (h2 : inp.mqttIn ≠ "") (h3 : inp.coapIn ≠ "") :
    get_user_config inp = (inp.httpIn, inp.mqttIn, inp.coapIn) ∧
    ("      - \"" ++ (inp.httpIn ++ ":8080\"")) ∈
      composeFileLines inp.httpIn inp.mqttIn inp.coapIn ∧
    ("      - \"" ++ (inp.mqttIn ++ ":1883\"")) ∈
      composeFileLines inp.httpIn inp.mqttIn inp.coapIn ∧
    ("      - \"" ++ (inp.coapIn ++ ":5683/udp\"")) ∈
      composeFileLines inp.httpIn inp.mqttIn inp.coapIn ∧
    (w.exitCode ("sudo ufw allow " ++ inp.httpIn) = 0 →
      w.exitCode ("sudo ufw allow " ++ inp.mqttIn) = 0 →
      w.exitCode ("sudo ufw allow " ++ inp.coapIn) = 0 →
      w.exitCode "sudo ufw enable" = 0 →
      ∃ s', configure_firewall w inp.httpIn inp.mqttIn inp.coapIn s = .ok s' ∧
        s'.trace = s.trace ++ ["sudo ufw allow " ++ inp.httpIn,
          "sudo ufw allow " ++ inp.mqttIn, "sudo ufw allow " ++ inp.coapIn,
          "sudo ufw enable"]) := by
  refine ⟨?_, ?_, ?_, ?_,
    fun g1 g2 g3 g4 => ⟨_, configure_firewall_ok w _ _ _ s g1 g2 g3 g4, rfl⟩⟩
  · simp [get_user_config, orBlank, h1, h2, h3]
  · simp [composeFileLines]
  · simp [composeFileLines]
  · simp [composeFileLines]

theorem ports_used_verbatim_witness :
    get_user_config customPortInputs = ("9090", "11883", "15683") ∧
    ∃ s', configure_firewall allOkWorld "9090" "11883" "15683" st0 = .ok s' ∧
      s'.trace = st0.trace ++ ["sudo ufw allow " ++ "9090", "sudo ufw allow " ++ "11883",
        "sudo ufw allow " ++ "15683", "sudo ufw enable"] :=
  ⟨(ports_used_verbatim customPortInputs allOkWorld st0
      (by decide) (by decide) (by decide)).1,
   (ports_used_verbatim customPortInputs allOkWorld st0
      (by decide) (by decide) (by decide)).2.2.2.2 rfl rfl rfl rfl⟩

set_option maxRecDepth 100000 in
/-- C1 counterexample: two full-installation runs that differ only in the
environment-tier answer (`dev` against `prod`) produce bit-identical
results, although the two tiers' derived resource limits differ; moreover
neither `JAVA_OPTS` nor `DB_POOL_SIZE` occurs anywhere in the rendered
descriptor text.  Hence the rendered descriptor does not depend on the
selected tier's resource limits, contrary to the claim. -/
theorem full_installation_ignores_tier_cex :
    full_installation allOkWorld
        { fs0 := [], httpIn := "", mqttIn := "", coapIn := "", envIn := "dev" } =
      full_installation allOkWorld
        { fs0 := [], httpIn := "", mqttIn := "", coapIn := "", envIn := "prod" } ∧
    (configure_environment "dev" st0).1 ≠ (configure_environment "prod" st0).1 ∧
    containsSub (compose_file_content "8080" "1883" "5683") "JAVA_OPTS" = false ∧
    containsSub (compose_file_content "8080" "1883" "5683") "DB_POOL_SIZE" = false :=
  ⟨rfl, by decide, by decide, by decide⟩

/-- C1 amended: `configure_environment` does derive the tier resource
limits, but `full_installation` never invokes it and its entire observable
behaviour — the rendered descriptor included — is independent of the
environment-tier answer. -/
theorem full_installation_env_independent (w : World) (inp : Inputs) (e : String) :
    full_installation w { inp with envIn := e } = full_installation w inp := rfl

end ClaimTheoremsPorts

section FatalityHelpers

theorem short_ne_append24 {u v : String} (hv : v.data.length < 24) :
    v ≠ "sudo usermod -aG docker " ++ u := by
  intro h
  have hd := congrArg String.data h
  rw [String.data_append] at hd
  have hl := congrArg List.length hd
  rw [List.length_append,
    show ("sudo usermod -aG docker ").data.length = 24 from rfl] at hl
  omega

theorem getLast_append_pair (A : List String) (a b : String) :
    (A ++ [a, b]).getLast? = some b := by
  rw [show A ++ [a, b] = (A ++ [a]) ++ [b] by simp, List.getLast?_concat]

theorem dropLast_append_pair (A : List String) (a b : String) :
    (A ++ [a, b]).dropLast.getLast? = some a := by
  rw [show A ++ [a, b] = (A ++ [a]) ++ [b] by simp, List.dropLast_concat,
    List.getLast?_concat]

theorem step_isOk_congr (x : Except (Nat × St) St) (f g : St → Except (Nat × St) St)
    (h : ∀ s, Except.isOk (f s) = Except.isOk (g s)) :
    Except.isOk (step x f) = Except.isOk (step x g) := by
  cases x with
  | error e => rfl
  | ok s => exact h s

end FatalityHelpers

section ClaimTheoremsFatal

/-- C2: every external command run through `run_command` that exits nonzero
makes the runner log the command and its captured stderr and terminate the
whole process with exit status 1; consequently, in a full-installation run
whose `docker-compose up -d` fails (all earlier commands succeeding), the
run ends as `exit(1)` right there: the last traced command is the failing
one, the last two log lines are the failure line and the captured stderr,
and no later step runs — no firewall command, no container query, no mail. -/
theorem run_command_failure_fatal :
    (∀ (w : World) (command description : String) (s : St),
      w.exitCode command ≠ 0 →
      run_command w command description s = .error (1, { s with
        logs := s.logs ++ [description] ++
          ["Failed to execute: " ++ command, w.stderr command],
        trace := s.trace ++ [command] })) ∧
    (∀ (w : World) (inp : Inputs),
      (∀ c, c ≠ "docker-compose up -d" → w.exitCode c = 0) →
      w.exitCode "docker-compose up -d" ≠ 0 →
      ∃ s, full_installation w inp = .error (1, s) ∧
        s.trace.getLast? = some "docker-compose up -d" ∧
        s.logs.getLast? = some (w.stderr "docker-compose up -d") ∧
        s.logs.dropLast.getLast? = some "Failed to execute: docker-compose up -d" ∧
        "sudo ufw enable" ∉ s.trace ∧
        "docker-compose ps" ∉ s.trace ∧
        s.emails = []) := by
  constructor
  · exact run_command_fail
  · intro w inp hok hdc
    have h0 : w.exitCode "sudo apt update && sudo apt upgrade -y" = 0 := hok _ (by decide)
    have h1 : w.exitCode "sudo apt install -y docker.io" = 0 := hok _ (by decide)
    have h2 : w.exitCode "sudo systemctl start docker && sudo systemctl enable docker" = 0 :=
      hok _ (by decide)
    have h3 : w.exitCode "sudo groupadd docker || true" = 0 := hok _ (by decide)
    have h4 : w.exitCode ("sudo usermod -aG docker " ++ w.user) = 0 :=
      hok _ (fun h => short_ne_append24 (by decide) h.symm)
    simp only [full_installation, update_and_upgrade_system, install_docker,
      install_thingsboard_docker_compose, run_command, step, get_user_config,
      h0, h1, h2, h3, h4, hdc]
    have hne1 : ¬("sudo ufw enable" = "sudo usermod -aG docker " ++ w.user) :=
      short_ne_append24 (by decide)
    have hne2 : ¬("docker-compose ps" = "sudo usermod -aG docker " ++ w.user) :=
      short_ne_append24 (by decide)
    refine ⟨_, rfl, ?_, ?_, ?_, ?_, ?_, ?_⟩
    · simp [List.getLast?_concat]
    · simp [getLast_append_pair]
    · simp [dropLast_append_pair]
    · simp [backup_trace, pre_install_check_trace, initSt, hne1]
    · simp [backup_trace, pre_install_check_trace, initSt, hne2]
    · simp [backup_emails, pre_install_check_emails, initSt]

theorem run_command_failure_fatal_witness :
    ∃ s, full_installation deployFailWorld blankInputs = .error (1, s) ∧
      s.trace.getLast? = some "docker-compose up -d" ∧
      s.logs.getLast? = some (deployFailWorld.stderr "docker-compose up -d") ∧
      s.logs.dropLast.getLast? = some "Failed to execute: docker-compose up -d" ∧
      "sudo ufw enable" ∉ s.trace ∧
      "docker-compose ps" ∉ s.trace ∧
      s.emails = [] :=
  run_command_failure_fatal.2 deployFailWorld blankInputs
    (fun c hc => by simp [deployFailWorld, hc]) (by decide)

/-- C8: a notification attempt never escalates — it leaves the file system
and command trace untouched, a failing SMTP session only adds the error log
line, and the overall outcome of a full-installation run (success or fatal
exit) is the same whether the SMTP send succeeds or fails. -/
theorem send_notification_never_escalates (w : World) (email : String) (b : Bool)
    (s : St) (inp : Inputs) :
    (send_notification w email b s).fs = s.fs ∧
    (send_notification w email b s).trace = s.trace ∧
    (w.smtpOk = false →
      send_notification w email b s =
        addLog s ("[ERROR] Failed to send notification email: " ++ w.smtpErr)) ∧
    (∀ b1 b2, Except.isOk (full_installation { w with smtpOk := b1 } inp) =
      Except.isOk (full_installation { w with smtpOk := b2 } inp)) := by
  refine ⟨?_, ?_, fun hf => ?_, fun b1 b2 => ?_⟩
  · unfold send_notification
    split <;> split <;> rfl
  · unfold send_notification
    split <;> split <;> rfl
  · simp [send_notification, hf]
  · unfold full_installation
    apply step_isOk_congr
    intro s
    apply step_isOk_congr
    intro s
    apply step_isOk_congr
    intro s
    apply step_isOk_congr
    intro s
    apply step_isOk_congr
    intro s
    rfl

theorem send_notification_never_escalates_witness :
    send_notification { allOkWorld with smtpOk := false, smtpErr := "connection refused" }
        "admin@example.com" true st0 =
      addLog st0 ("[ERROR] Failed to send notification email: " ++ "connection refused") :=
  (send_notification_never_escalates
    { allOkWorld with smtpOk := false, smtpErr := "connection refused" }
    "admin@example.com" true st0 blankInputs).2.2.1 rfl

end ClaimTheoremsFatal

end TBInstall
